import Mathlib

/-!
Shallow embedding of the acquisition/trigger core of `logic_analyzer.py`
(`LogicAnalyzerManager`): the sampling-tick body of `_acquisition_loop`,
the trigger condition `_check_trigger_condition`, the configuration and
arm/disarm API, the auto-rearm block of `_streaming_loop`, and the PWM
analyzer `_analyze_pwm_signal`.

Python `collections.deque(maxlen = n)` is modelled as a `List` with a
bounded append that evicts the oldest (leftmost) element once full.
Timestamps and analyzer arithmetic are modelled over `ℚ`.
-/

namespace LogicAnalyzer

/-- deque(maxlen = n).append x : append on the right, evict from the left
once the length exceeds `n`. -/
def dappend (n : Nat) (xs : List α) (x : α) : List α :=
  let ys := xs ++ [x]
  ys.drop (ys.length - n)

/-- deque(maxlen = n).extend ys : iterated bounded append. -/
def dextend (n : Nat) (xs ys : List α) : List α :=
  ys.foldl (dappend n) xs

/-- The trigger/buffer state of `LogicAnalyzerManager` (the fields the
acquisition loop, the streaming loop and the trigger API read or write). -/
structure LAState where
  trigger_enabled : Bool
  trigger_channel : String
  trigger_edge : String
  trigger_level : Int
  trigger_armed : Bool
  trigger_captured : Bool
  trigger_displayed : Bool
  trigger_start_time : Option ℚ
  trigger_timeout : ℚ
  buffer_size : Nat
  pre_trigger_buffer_size : Nat
  post_trigger_buffer_size : Nat
  sampling_rate : Int
  ch1_diff_buffer : List Int
  ch2_diff_buffer : List Int
  timestamp_buffer : List ℚ
  pre_trigger_ch1 : List Int
  pre_trigger_ch2 : List Int
  pre_trigger_timestamps : List ℚ
deriving DecidableEq

/-- The field values set in `LogicAnalyzerManager.__init__`. -/
def initState : LAState where
  trigger_enabled := false
  trigger_channel := "ch1"
  trigger_edge := "rising"
  trigger_level := 0
  trigger_armed := false
  trigger_captured := false
  trigger_displayed := false
  trigger_start_time := none
  trigger_timeout := 5
  buffer_size := 100000
  pre_trigger_buffer_size := 5000
  post_trigger_buffer_size := 10000
  sampling_rate := 10000
  ch1_diff_buffer := []
  ch2_diff_buffer := []
  timestamp_buffer := []
  pre_trigger_ch1 := []
  pre_trigger_ch2 := []
  pre_trigger_timestamps := []

/-- Embedding of `_check_trigger_condition(prev_ch_value, curr_ch_value)`. -/
def check_trigger_condition (s : LAState) (prev curr : Int) : Bool :=
  if !s.trigger_enabled || !s.trigger_armed then false
  else if s.trigger_edge = "rising" then
    -- Rising edge: transition from <= 0 to >= 1
    decide (prev ≤ 0 ∧ curr ≥ 1)
  else if s.trigger_edge = "falling" then
    -- Falling edge: transition from >= 1 to <= 0
    decide (prev ≥ 1 ∧ curr ≤ 0)
  else false

/-- Embedding of `arm_trigger()`: rearm and clear all six buffers (`now`
stands for the `time.time()` call). -/
def arm_trigger (s : LAState) (now : ℚ) : LAState × Bool :=
  ({ s with
      trigger_armed := true
      trigger_captured := false
      trigger_displayed := false
      trigger_start_time := some now
      ch1_diff_buffer := []
      ch2_diff_buffer := []
      timestamp_buffer := []
      pre_trigger_ch1 := []
      pre_trigger_ch2 := []
      pre_trigger_timestamps := [] }, true)

/-- Embedding of `disarm_trigger()`. -/
def disarm_trigger (s : LAState) : LAState × Bool :=
  ({ s with trigger_armed := false, trigger_captured := false }, true)

/-- Embedding of `set_trigger_config(enabled, channel, edge, level)`: each parameter is
applied only when it passes its membership test; an invalid value is
silently skipped; when the resulting `trigger_enabled` is true the trigger
state is reset; the call returns `True`. -/
def set_trigger_config (s : LAState) (enabled : Bool) (channel edge : String)
    (level : Int) (now : ℚ) : LAState × Bool :=
  let s := { s with trigger_enabled := enabled }
  let s := if channel = "ch1" ∨ channel = "ch2" then
      { s with trigger_channel := channel } else s
  let s := if edge = "rising" ∨ edge = "falling" then
      { s with trigger_edge := edge } else s
  let s := if level = -1 ∨ level = 0 ∨ level = 1 then
      { s with trigger_level := level } else s
  let s := if s.trigger_enabled then
      { s with
        trigger_armed := true
        trigger_captured := false
        trigger_displayed := false
        trigger_start_time := some now
        pre_trigger_ch1 := []
        pre_trigger_ch2 := []
        pre_trigger_timestamps := [] }
    else s
  (s, true)

/-- Embedding of `set_sampling_rate(rate)` on an integer argument: stores the rate and
returns `True` (no validation). -/
def set_sampling_rate (s : LAState) (rate : Int) : LAState × Bool :=
  ({ s with sampling_rate := rate }, true)

/-- The expression `sample_interval = 1.0 / self.sampling_rate` at the top of
`_acquisition_loop`: `none` models the `ZeroDivisionError` raised when the
rate is `0`. -/
def sampleInterval (rate : Int) : Option ℚ :=
  if rate = 0 then none else some (1 / (rate : ℚ))

/-- Append one sample to the three main buffers (all `deque(maxlen =
buffer_size)`). -/
def appendMain (s : LAState) (c1 c2 : Int) (t : ℚ) : LAState :=
  { s with
    ch1_diff_buffer := dappend s.buffer_size s.ch1_diff_buffer c1
    ch2_diff_buffer := dappend s.buffer_size s.ch2_diff_buffer c2
    timestamp_buffer := dappend s.buffer_size s.timestamp_buffer t }

/-- Append one sample to the three pre-trigger staging buffers (all
`deque(maxlen = pre_trigger_buffer_size)`). -/
def appendPre (s : LAState) (c1 c2 : Int) (t : ℚ) : LAState :=
  { s with
    pre_trigger_ch1 := dappend s.pre_trigger_buffer_size s.pre_trigger_ch1 c1
    pre_trigger_ch2 := dappend s.pre_trigger_buffer_size s.pre_trigger_ch2 c2
    pre_trigger_timestamps :=
      dappend s.pre_trigger_buffer_size s.pre_trigger_timestamps t }

/-- Lines 320-323: `if len(self.pre_trigger_ch1) > 0:` extend the three
main buffers with the three staging buffers (the staging buffers are not
modified). -/
def carryPre (s : LAState) : LAState :=
  if s.pre_trigger_ch1.length > 0 then
    { s with
      ch1_diff_buffer := dextend s.buffer_size s.ch1_diff_buffer s.pre_trigger_ch1
      ch2_diff_buffer := dextend s.buffer_size s.ch2_diff_buffer s.pre_trigger_ch2
      timestamp_buffer :=
        dextend s.buffer_size s.timestamp_buffer s.pre_trigger_timestamps }
  else s

/-- The state update on a firing tick (lines 314-323): set
`trigger_captured`, reset `trigger_displayed`, move pre-trigger data. -/
def fireTrigger (s : LAState) : LAState :=
  carryPre { s with trigger_captured := true, trigger_displayed := false }

/-- Result of one sampling tick of `_acquisition_loop`: the new shared
state, the new `post_trigger_count` loop variable, and whether the
`trigger_captured` / `trigger_timeout` socket events were emitted. -/
structure TickResult where
  state : LAState
  postCount : Nat
  fired : Bool
  timedOut : Bool
deriving DecidableEq

/-- Lines 306-330: if the trigger is enabled, armed and not yet captured,
test the trigger condition on the trigger channel and, on a match, perform
the `fireTrigger` update. Returns the new state and whether the
`trigger_captured` event fired. -/
def triggerPhase (s0 : LAState) (prev1 prev2 c1 c2 : Int) : LAState × Bool :=
  let fired : Bool :=
    s0.trigger_enabled && s0.trigger_armed && !s0.trigger_captured &&
      check_trigger_condition s0
        (if s0.trigger_channel = "ch1" then prev1 else prev2)
        (if s0.trigger_channel = "ch1" then c1 else c2)
  (if fired then fireTrigger s0 else s0, fired)

/-- Lines 332-354: route the sample to the main or pre-trigger buffers and
apply the post-trigger quota check. Returns the new state and the new
`post_trigger_count`. -/
def routeSample (s1 : LAState) (postCount1 : Nat) (c1 c2 : Int) (now : ℚ) :
    LAState × Nat :=
  if s1.trigger_enabled then
    if s1.trigger_captured then
      -- Post-trigger capture: fill main buffer
      let s := appendMain s1 c1 c2 now
      let pc := postCount1 + 1
      -- Stop capturing after post-trigger buffer is full
      (if pc ≥ s.post_trigger_buffer_size then
          { s with trigger_armed := false } else s, pc)
    else
      -- Waiting for trigger: accumulate only in pre-trigger buffer
      (appendPre s1 c1 c2 now, postCount1)
  else
    -- Continuous capture mode (trigger disabled)
    (appendMain s1 c1 c2 now, postCount1)

/-- Lines 356-365: the trigger-timeout check (`if self.trigger_start_time
and current_time - self.trigger_start_time > self.trigger_timeout`; the
Python truthiness test on the float is modelled by `t0 ≠ 0` on the
optional value). Returns the new state and whether the `trigger_timeout`
event was emitted. -/
def timeoutCheck (s2 : LAState) (now : ℚ) : LAState × Bool :=
  let timedOut : Bool :=
    s2.trigger_enabled && s2.trigger_armed && !s2.trigger_captured &&
      (match s2.trigger_start_time with
       | some t0 => decide (t0 ≠ 0) && decide (now - t0 > s2.trigger_timeout)
       | none => false)
  (if timedOut then { s2 with trigger_armed := false } else s2, timedOut)

/-- The body of one sampling tick of `_acquisition_loop` (lines 303-365):
trigger-condition check and pre-trigger carry-over, sample routing, the
post-trigger quota check, and the trigger-timeout check. `prev1`/`prev2`
are the loop variables `prev_ch1_diff`/`prev_ch2_diff` and `postCount` is
`post_trigger_count`. -/
def acqTick (s0 : LAState) (prev1 prev2 : Int) (postCount : Nat)
    (c1 c2 : Int) (now : ℚ) : TickResult :=
  let tp := triggerPhase s0 prev1 prev2 c1 c2
  let postCount1 := if tp.2 then 0 else postCount
  let rt := routeSample tp.1 postCount1 c1 c2 now
  let tc := timeoutCheck rt.1 now
  ⟨tc.1, rt.2, tp.2, tc.2⟩

/-- Cumulative result of running several sampling ticks. -/
structure RunResult where
  state : LAState
  postCount : Nat
  firedList : List Bool
  timedOutList : List Bool
deriving DecidableEq

/-- Run `acqTick` over a list of samples `(ch1_diff, ch2_diff, timestamp)`,
threading the `prev_ch1_diff`/`prev_ch2_diff` loop variables exactly as
lines 368-369 do, and collecting the emitted events. -/
def runTicks (s : LAState) (prev1 prev2 : Int) (postCount : Nat) :
    List (Int × Int × ℚ) → RunResult
  | [] => ⟨s, postCount, [], []⟩
  | (c1, c2, t) :: rest =>
    let r := acqTick s prev1 prev2 postCount c1 c2 t
    let rr := runTicks r.state c1 c2 r.postCount rest
    ⟨rr.state, rr.postCount, r.fired :: rr.firedList, r.timedOut :: rr.timedOutList⟩

/-- The auto-rearm block of `_streaming_loop` (lines 493-502): reset the
trigger flags, restart the timeout clock and clear all six buffers. -/
def auto_rearm (s : LAState) (now : ℚ) : LAState :=
  { s with
    trigger_displayed := false
    trigger_captured := false
    trigger_armed := true
    trigger_start_time := some now
    ch1_diff_buffer := []
    ch2_diff_buffer := []
    timestamp_buffer := []
    pre_trigger_ch1 := []
    pre_trigger_ch2 := []
    pre_trigger_timestamps := [] }

/-- Embedding of `np.diff` on the integer signal: consecutive differences. -/
def diffI : List Int → List Int
  | a :: b :: rest => (b - a) :: diffI (b :: rest)
  | _ => []

/-- Embedding of `np.diff` on a list of timestamps. -/
def diffQ : List ℚ → List ℚ
  | a :: b :: rest => (b - a) :: diffQ (b :: rest)
  | _ => []

/-- Embedding of `np.where(p(arr))[0]` : the indices at which `p` holds. -/
def idxWhere (p : Int → Bool) : List Int → List Nat
  | [] => []
  | x :: xs => (if p x then [0] else []) ++ (idxWhere p xs).map (· + 1)

/-- NumPy fancy indexing `times[idxs]`. -/
def selectQ (times : List ℚ) (idxs : List Nat) : List ℚ :=
  idxs.map (fun i => times.getD i 0)

/-- Embedding of `np.mean` of a nonempty list. -/
def meanQ (l : List ℚ) : ℚ := l.sum / l.length

/-- The high-time accumulation loop of `_analyze_pwm_signal` (lines
443-448): sum `times[fall_idx] - times[rise_idx]` over paired rising and
falling edges with `fall_idx > rise_idx`. -/
def highTime (rising falling : List Nat) (times : List ℚ) : ℚ :=
  (List.range rising.length).foldl
    (fun acc i =>
      let rise_idx := rising.getD i 0
      if i < falling.length then
        let fall_idx := falling.getD i 0
        if fall_idx > rise_idx then
          acc + (times.getD fall_idx 0 - times.getD rise_idx 0)
        else acc
      else acc) 0

/-- The array `rising_edges = np.where(diff_signal == 1)[0] + 1` (indices of `+1`
steps of the raw signal). -/
def rising_edges (data : List Int) : List Nat :=
  (idxWhere (fun d => d == 1) (diffI data)).map (· + 1)

/-- The array `falling_edges = np.where(diff_signal == -1)[0] + 1`. -/
def falling_edges (data : List Int) : List Nat :=
  (idxWhere (fun d => d == -1) (diffI data)).map (· + 1)

/-- The array `periods = np.diff(times[rising_edges])`: the inter-rising-edge
periods used by the main frequency path. -/
def risingPeriods (data : List Int) (timestamps : List ℚ) : List ℚ :=
  diffQ (selectQ timestamps (rising_edges data))

/-- Embedding of `_analyze_pwm_signal(data, timestamps)`, returning
`(frequency, duty_cycle)` over exact rationals. -/
def analyze_pwm_signal (data : List Int) (timestamps : List ℚ) : ℚ × ℚ :=
  if data.length < 10 ∨ timestamps.length < 10 then (0, 0)
  else
    let signal := data
    let times := timestamps
    let diff_signal := diffI signal
    if (rising_edges data).length < 2 ∧ (falling_edges data).length < 2 then
      -- No clear PWM pattern, try to estimate from signal levels
      let high_count := signal.countP (fun v => decide (1 ≤ v))  -- v >= 0.5 on integers
      let total_count := signal.length
      let duty_cycle : ℚ :=
        if total_count > 0 then ((high_count : ℚ) / (total_count : ℚ)) * 100 else 0
      let changes := idxWhere (fun d => d != 0) diff_signal
      let frequency : ℚ :=
        if changes.length ≥ 4 then
          let periods := diffQ (selectQ times changes)
          if periods.length > 0 then
            let avg_period := meanQ periods
            if avg_period > 0 then 1 / avg_period else 0
          else 0
        else 0
      (frequency, duty_cycle)
    else
      let all_edges :=
        List.insertionSort (· ≤ ·) (rising_edges data ++ falling_edges data)
      if all_edges.length < 4 then (0, 0)
      else
        let frequency : ℚ :=
          if (rising_edges data).length ≥ 2 then
            let periods := risingPeriods data timestamps
            let avg_period := meanQ periods
            if avg_period > 0 then 1 / avg_period else 0
          else
            -- Fallback: use time span and edge count
            let time_span := times.getLastD 0 - times.headD 0
            let edge_count := all_edges.length
            if time_span > 0 ∧ edge_count > 0 then
              (edge_count : ℚ) / (2 * time_span)  -- Divide by 2 for full cycles
            else 0
        let total_time := times.getLastD 0 - times.headD 0
        let high_time := highTime (rising_edges data) (falling_edges data) times
        let duty_cycle : ℚ :=
          if total_time > 0 then (high_time / total_time) * 100 else 0
        (frequency, duty_cycle)

/-- Spec-side definition for the refinement comparison (§4.5 of the
specification): binarize, `value > 0 → high`. -/
def specBinarize (v : Int) : Bool := decide (0 < v)

/-- Spec-side definition for the refinement comparison (§4.5): the number
of index positions where the binarized value changes. -/
def specBinEdges : List Int → Nat
  | a :: b :: rest =>
    (if specBinarize a ≠ specBinarize b then 1 else 0) + specBinEdges (b :: rest)
  | _ => 0

/-- Spec-side definition for the refinement comparison (§4.5): the median
of a list of candidate periods. -/
def specMedian (l : List ℚ) : ℚ :=
  let s := List.insertionSort (· ≤ ·) l
  if l.length = 0 then 0
  else if l.length % 2 = 1 then s.getD (l.length / 2) 0
  else (s.getD (l.length / 2 - 1) 0 + s.getD (l.length / 2) 0) / 2

/-- The alignment invariant: the three main buffers have equal length. -/
def aligned (s : LAState) : Prop :=
  s.ch1_diff_buffer.length = s.ch2_diff_buffer.length ∧
  s.ch1_diff_buffer.length = s.timestamp_buffer.length

/-- The three pre-trigger staging buffers have equal length. -/
def preAligned (s : LAState) : Prop :=
  s.pre_trigger_ch1.length = s.pre_trigger_ch2.length ∧
  s.pre_trigger_ch1.length = s.pre_trigger_timestamps.length

/-- A frozen capture: trigger enabled, capture complete (the post-trigger
quota has been reached, so the loop has set `trigger_armed = False` while
`trigger_captured` is still `True`), with a two-sample capture in the main
buffers. -/
def frozenState : LAState :=
  { initState with
    trigger_enabled := true
    trigger_captured := true
    trigger_armed := false
    ch1_diff_buffer := [1, 1]
    ch2_diff_buffer := [0, 0]
    timestamp_buffer := [1, 2] }

/-- An armed state with two staged pre-trigger samples. -/
def stagedState : LAState :=
  { initState with
    trigger_enabled := true
    trigger_armed := true
    trigger_start_time := some 1
    trigger_timeout := 100
    pre_trigger_ch1 := [5, 6]
    pre_trigger_ch2 := [7, 8]
    pre_trigger_timestamps := [1, 2] }

/-- An armed state whose timeout clock (2 seconds, armed at time 1) has a
staged sample. -/
def armedShortTimeout : LAState :=
  { initState with
    trigger_enabled := true
    trigger_armed := true
    trigger_start_time := some 1
    trigger_timeout := 2
    pre_trigger_ch1 := [0]
    pre_trigger_ch2 := [0]
    pre_trigger_timestamps := [2] }

/-- An armed state with pre-trigger staging capacity 3 (the scenario of
the pre-trigger carry-over test property). -/
def armedCap3 : LAState :=
  (arm_trigger
    { initState with
      trigger_enabled := true
      pre_trigger_buffer_size := 3
      trigger_timeout := 100 } 1).1

/-- Five non-matching samples (trigger channel `ch1` constant at `0`)
followed by one rising-edge sample; the `ch2` values `10..60` and the
timestamps `1..6` identify the individual samples. -/
def fiveThenTrigger : List (Int × Int × ℚ) :=
  [(0, 10, 1), (0, 20, 2), (0, 30, 3), (0, 40, 4), (0, 50, 5), (1, 60, 6)]

/-- An armed rising-edge state with a given trigger level. -/
def armedRising (level : Int) : LAState :=
  { initState with
    trigger_enabled := true
    trigger_armed := true
    trigger_edge := "rising"
    trigger_level := level
    trigger_start_time := some 1
    trigger_timeout := 100 }

/-- An armed falling-edge state with a given trigger level. -/
def armedFalling (level : Int) : LAState :=
  { initState with
    trigger_enabled := true
    trigger_armed := true
    trigger_edge := "falling"
    trigger_level := level
    trigger_start_time := some 1
    trigger_timeout := 100 }

/-- The trigger-channel sequence `[-1,-1,0,1,1]` as samples on `ch1`. -/
def seqRising : List (Int × Int × ℚ) :=
  [(-1, 0, 1), (-1, 0, 2), (0, 0, 3), (1, 0, 4), (1, 0, 5)]

/-- A window that binarizes to five lows followed by five highs: one
binarized edge. -/
def stepWindow : List Int := [0, 0, 0, 0, 0, 1, 1, 1, 1, 1]

/-- A window oscillating between `-1` and `0`: the binarized value is
constantly low (zero binarized edges). -/
def lowOscWindow : List Int := [-1, 0, -1, 0, -1, 0, -1, 0, -1, 0]

/-- A window whose inter-rising-edge periods are `[2, 2, 4]`: their median
is `2` while their mean is `8/3`. -/
def unevenWindow : List Int := [0, 1, 0, 1, 0, 1, 0, 0, 0, 1]

/-- Unit-spaced timestamps for a ten-sample window. -/
def ts10 : List ℚ := [0, 1, 2, 3, 4, 5, 6, 7, 8, 9]

theorem length_dappend (n : Nat) (xs : List α) (x : α) :
    (dappend n xs x).length = min (xs.length + 1) n := by
  simp [dappend]
  omega

theorem dappend_of_le (n : Nat) (xs : List α) (x : α) (h : xs.length + 1 ≤ n) :
    dappend n xs x = xs ++ [x] := by
  simp [dappend]
  have h0 : xs.length + 1 - n = 0 := by omega
  simp [h0]

theorem dextend_of_le (n : Nat) :
    ∀ (ys xs : List α), xs.length + ys.length ≤ n → dextend n xs ys = xs ++ ys := by
  intro ys
  induction ys with
  | nil =>
    intro xs h
    simp [dextend]
  | cons y ys ih =>
    intro xs h
    have h1 : xs.length + 1 ≤ n := by
      simp at h
      omega
    have hstep : dextend n xs (y :: ys) = dextend n (dappend n xs y) ys := rfl
    rw [hstep, dappend_of_le n xs y h1, ih (xs ++ [y])]
    · simp
    · simp at h ⊢
      omega

theorem length_dextend_eq (n : Nat) :
    ∀ (as : List α) (bs : List β) (xs : List α) (ys : List β),
    xs.length = ys.length → as.length = bs.length →
    (dextend n xs as).length = (dextend n ys bs).length := by
  intro as
  induction as with
  | nil =>
    intro bs xs ys h hl
    cases bs with
    | nil => simpa [dextend] using h
    | cons b bs => simp at hl
  | cons a as ih =>
    intro bs xs ys h hl
    cases bs with
    | nil => simp at hl
    | cons b bs =>
      have hd : (dappend n xs a).length = (dappend n ys b).length := by
        rw [length_dappend, length_dappend, h]
      have hl' : as.length = bs.length := by simpa using hl
      exact ih bs (dappend n xs a) (dappend n ys b) hd hl'

theorem aligned_appendMain {s : LAState} (h : aligned s) (c1 c2 : Int) (t : ℚ) :
    aligned (appendMain s c1 c2 t) := by
  obtain ⟨h1, h2⟩ := h
  constructor <;>
    · simp [appendMain, length_dappend]
      omega

theorem preAligned_appendMain {s : LAState} (hp : preAligned s) (c1 c2 : Int) (t : ℚ) :
    preAligned (appendMain s c1 c2 t) := hp

theorem aligned_appendPre {s : LAState} (h : aligned s) (c1 c2 : Int) (t : ℚ) :
    aligned (appendPre s c1 c2 t) := h

theorem preAligned_appendPre {s : LAState} (hp : preAligned s) (c1 c2 : Int) (t : ℚ) :
    preAligned (appendPre s c1 c2 t) := by
  obtain ⟨h1, h2⟩ := hp
  constructor <;>
    · simp [appendPre, length_dappend]
      omega

theorem aligned_fireTrigger {s : LAState} (h : aligned s) (hp : preAligned s) :
    aligned (fireTrigger s) := by
  obtain ⟨h1, h2⟩ := h
  obtain ⟨p1, p2⟩ := hp
  unfold fireTrigger carryPre
  split
  · exact ⟨length_dextend_eq s.buffer_size _ _ _ _ h1 p1,
      length_dextend_eq s.buffer_size _ _ _ _ h2 p2⟩
  · exact ⟨h1, h2⟩

theorem preAligned_fireTrigger {s : LAState} (hp : preAligned s) :
    preAligned (fireTrigger s) := by
  unfold fireTrigger carryPre
  split
  · exact hp
  · exact hp

theorem preserved_fireIf {t : LAState} (h : aligned t) (hp : preAligned t)
    (c : Prop) [Decidable c] :
    aligned (if c then fireTrigger t else t) ∧
    preAligned (if c then fireTrigger t else t) := by
  split
  · exact ⟨aligned_fireTrigger h hp, preAligned_fireTrigger hp⟩
  · exact ⟨h, hp⟩

theorem preserved_armIf {t : LAState} (h : aligned t) (hp : preAligned t)
    (c : Prop) [Decidable c] :
    aligned (if c then { t with trigger_armed := false } else t) ∧
    preAligned (if c then { t with trigger_armed := false } else t) := by
  split
  · exact ⟨h, hp⟩
  · exact ⟨h, hp⟩

theorem preserved_triggerPhase {s : LAState} (h : aligned s) (hp : preAligned s)
    (prev1 prev2 c1 c2 : Int) :
    aligned (triggerPhase s prev1 prev2 c1 c2).1 ∧
    preAligned (triggerPhase s prev1 prev2 c1 c2).1 :=
  preserved_fireIf h hp _

theorem preserved_routeSample {s : LAState} (h : aligned s) (hp : preAligned s)
    (pc : Nat) (c1 c2 : Int) (now : ℚ) :
    aligned (routeSample s pc c1 c2 now).1 ∧
    preAligned (routeSample s pc c1 c2 now).1 := by
  unfold routeSample
  split
  · split
    · exact preserved_armIf (aligned_appendMain h c1 c2 now)
        (preAligned_appendMain hp c1 c2 now) _
    · exact ⟨aligned_appendPre h c1 c2 now, preAligned_appendPre hp c1 c2 now⟩
  · exact ⟨aligned_appendMain h c1 c2 now, preAligned_appendMain hp c1 c2 now⟩

theorem preserved_timeoutCheck {s : LAState} (h : aligned s) (hp : preAligned s)
    (now : ℚ) :
    aligned (timeoutCheck s now).1 ∧ preAligned (timeoutCheck s now).1 :=
  preserved_armIf h hp _

theorem preserved_acqTick {s : LAState} (h : aligned s) (hp : preAligned s)
    (prev1 prev2 : Int) (pc : Nat) (c1 c2 : Int) (now : ℚ) :
    aligned (acqTick s prev1 prev2 pc c1 c2 now).state ∧
    preAligned (acqTick s prev1 prev2 pc c1 c2 now).state := by
  unfold acqTick
  dsimp only
  obtain ⟨h1, hp1⟩ := preserved_triggerPhase h hp prev1 prev2 c1 c2
  obtain ⟨h2, hp2⟩ := preserved_routeSample h1 hp1
    (if (triggerPhase s prev1 prev2 c1 c2).2 then 0 else pc) c1 c2 now
  exact preserved_timeoutCheck h2 hp2 now

theorem preserved_set_trigger_config {s : LAState} (h : aligned s) (hp : preAligned s)
    (enabled : Bool) (channel edge : String) (level : Int) (now : ℚ) :
    aligned (set_trigger_config s enabled channel edge level now).1 ∧
    preAligned (set_trigger_config s enabled channel edge level now).1 := by
  unfold set_trigger_config
  dsimp only
  split_ifs <;> first
    | exact ⟨h, hp⟩
    | exact ⟨h, ⟨rfl, rfl⟩⟩

/-- C3: for every acquisition session and after every operation touching
the buffers — a sampling tick (which covers sample routing, trigger fire
and trigger timeout), `arm_trigger`, `disarm_trigger`, the streaming
loop's auto-rearm, and `set_trigger_config` — the three main buffers keep
equal length (and so do the three pre-trigger staging buffers). -/
theorem C3_alignment_invariant (s : LAState) (prev1 prev2 : Int) (pc : Nat)
    (c1 c2 : Int) (now t : ℚ) (enabled : Bool) (channel edge : String) (level : Int)
    (h : aligned s) (hp : preAligned s) :
    (aligned (acqTick s prev1 prev2 pc c1 c2 now).state ∧
      preAligned (acqTick s prev1 prev2 pc c1 c2 now).state) ∧
    (aligned (arm_trigger s t).1 ∧ preAligned (arm_trigger s t).1) ∧
    (aligned (disarm_trigger s).1 ∧ preAligned (disarm_trigger s).1) ∧
    (aligned (auto_rearm s t) ∧ preAligned (auto_rearm s t)) ∧
    (aligned (set_trigger_config s enabled channel edge level t).1 ∧
      preAligned (set_trigger_config s enabled channel edge level t).1) :=
  ⟨preserved_acqTick h hp prev1 prev2 pc c1 c2 now,
    ⟨⟨rfl, rfl⟩, ⟨rfl, rfl⟩⟩,
    ⟨h, hp⟩,
    ⟨⟨rfl, rfl⟩, ⟨rfl, rfl⟩⟩,
    preserved_set_trigger_config h hp enabled channel edge level t⟩

/-- Witness for C3 at the initial state with a concrete sample. -/
theorem C3_alignment_invariant_witness :
    (aligned initState ∧ preAligned initState) ∧
    ((aligned (acqTick initState 0 0 0 1 1 2).state ∧
        preAligned (acqTick initState 0 0 0 1 1 2).state) ∧
      (aligned (arm_trigger initState 3).1 ∧ preAligned (arm_trigger initState 3).1) ∧
      (aligned (disarm_trigger initState).1 ∧ preAligned (disarm_trigger initState).1) ∧
      (aligned (auto_rearm initState 3) ∧ preAligned (auto_rearm initState 3)) ∧
      (aligned (set_trigger_config initState true "ch1" "rising" 0 3).1 ∧
        preAligned (set_trigger_config initState true "ch1" "rising" 0 3).1)) :=
  ⟨⟨⟨rfl, rfl⟩, ⟨rfl, rfl⟩⟩,
    C3_alignment_invariant initState 0 0 0 1 1 2 3 true "ch1" "rising" 0
      ⟨rfl, rfl⟩ ⟨rfl, rfl⟩⟩

/-- C1: the claim is false of the code (`code_bug`): in a completed
capture (post-trigger quota reached, so `trigger_armed = False` while
`trigger_captured` is still `True`), the next sampling tick still appends
the sample to all three main buffers — the capture window is not frozen,
contradicting the loop's own `Stop capturing after post-trigger buffer is
full` comment. -/
theorem C1_capture_not_frozen :
    frozenState.trigger_enabled = true ∧
    frozenState.trigger_captured = true ∧
    frozenState.trigger_armed = false ∧
    (acqTick frozenState 1 0 10000 0 0 3).state.ch1_diff_buffer = [1, 1, 0] ∧
    (acqTick frozenState 1 0 10000 0 0 3).state.ch2_diff_buffer = [0, 0, 0] ∧
    (acqTick frozenState 1 0 10000 0 0 3).state.timestamp_buffer = [1, 2, 3] := by
  decide

theorem armIf_fields (c : Prop) [inst : Decidable c] (t : LAState) :
    (if c then { t with trigger_armed := false } else t).ch1_diff_buffer
      = t.ch1_diff_buffer ∧
    (if c then { t with trigger_armed := false } else t).ch2_diff_buffer
      = t.ch2_diff_buffer ∧
    (if c then { t with trigger_armed := false } else t).timestamp_buffer
      = t.timestamp_buffer ∧
    (if c then { t with trigger_armed := false } else t).pre_trigger_ch1
      = t.pre_trigger_ch1 ∧
    (if c then { t with trigger_armed := false } else t).pre_trigger_ch2
      = t.pre_trigger_ch2 ∧
    (if c then { t with trigger_armed := false } else t).pre_trigger_timestamps
      = t.pre_trigger_timestamps ∧
    (if c then { t with trigger_armed := false } else t).trigger_captured
      = t.trigger_captured := by
  split <;> exact ⟨rfl, rfl, rfl, rfl, rfl, rfl, rfl⟩

theorem fireTrigger_of_nonempty {s : LAState} (hne : 0 < s.pre_trigger_ch1.length) :
    fireTrigger s =
      { s with
        trigger_captured := true
        trigger_displayed := false
        ch1_diff_buffer := dextend s.buffer_size s.ch1_diff_buffer s.pre_trigger_ch1
        ch2_diff_buffer := dextend s.buffer_size s.ch2_diff_buffer s.pre_trigger_ch2
        timestamp_buffer :=
          dextend s.buffer_size s.timestamp_buffer s.pre_trigger_timestamps } := by
  unfold fireTrigger carryPre
  rw [if_pos]
  exact hne

/-- C2 (amended): on the firing tick the staging buffers' entire contents
are appended to the main buffers in original order, followed by the
current sample — but the staging buffers are NOT cleared: they keep their
contents (copied, not moved). Stated under no-eviction capacity hypotheses. -/
theorem C2_carry_over_amended (s : LAState) (prev1 prev2 : Int) (pc : Nat)
    (c1 c2 : Int) (now : ℚ)
    (hen : s.trigger_enabled = true) (harm : s.trigger_armed = true)
    (hcap : s.trigger_captured = false)
    (hcond : check_trigger_condition s
      (if s.trigger_channel = "ch1" then prev1 else prev2)
      (if s.trigger_channel = "ch1" then c1 else c2) = true)
    (hne : 0 < s.pre_trigger_ch1.length)
    (hroom1 : s.ch1_diff_buffer.length + s.pre_trigger_ch1.length + 1 ≤ s.buffer_size)
    (hroom2 : s.ch2_diff_buffer.length + s.pre_trigger_ch2.length + 1 ≤ s.buffer_size)
    (hroom3 : s.timestamp_buffer.length + s.pre_trigger_timestamps.length + 1
      ≤ s.buffer_size) :
    (acqTick s prev1 prev2 pc c1 c2 now).fired = true ∧
    (acqTick s prev1 prev2 pc c1 c2 now).state.ch1_diff_buffer
      = s.ch1_diff_buffer ++ s.pre_trigger_ch1 ++ [c1] ∧
    (acqTick s prev1 prev2 pc c1 c2 now).state.ch2_diff_buffer
      = s.ch2_diff_buffer ++ s.pre_trigger_ch2 ++ [c2] ∧
    (acqTick s prev1 prev2 pc c1 c2 now).state.timestamp_buffer
      = s.timestamp_buffer ++ s.pre_trigger_timestamps ++ [now] ∧
    (acqTick s prev1 prev2 pc c1 c2 now).state.pre_trigger_ch1 = s.pre_trigger_ch1 ∧
    (acqTick s prev1 prev2 pc c1 c2 now).state.pre_trigger_ch2 = s.pre_trigger_ch2 ∧
    (acqTick s prev1 prev2 pc c1 c2 now).state.pre_trigger_timestamps
      = s.pre_trigger_timestamps := by
  have hx1 : dappend s.buffer_size
      (dextend s.buffer_size s.ch1_diff_buffer s.pre_trigger_ch1) c1
      = s.ch1_diff_buffer ++ s.pre_trigger_ch1 ++ [c1] := by
    rw [dextend_of_le s.buffer_size s.pre_trigger_ch1 s.ch1_diff_buffer (by omega),
      dappend_of_le]
    simp only [List.length_append]
    omega
  have hx2 : dappend s.buffer_size
      (dextend s.buffer_size s.ch2_diff_buffer s.pre_trigger_ch2) c2
      = s.ch2_diff_buffer ++ s.pre_trigger_ch2 ++ [c2] := by
    rw [dextend_of_le s.buffer_size s.pre_trigger_ch2 s.ch2_diff_buffer (by omega),
      dappend_of_le]
    simp only [List.length_append]
    omega
  have hx3 : dappend s.buffer_size
      (dextend s.buffer_size s.timestamp_buffer s.pre_trigger_timestamps) now
      = s.timestamp_buffer ++ s.pre_trigger_timestamps ++ [now] := by
    rw [dextend_of_le s.buffer_size s.pre_trigger_timestamps s.timestamp_buffer
        (by omega), dappend_of_le]
    simp only [List.length_append]
    omega
  simp only [acqTick, triggerPhase, routeSample, timeoutCheck,
    fireTrigger_of_nonempty hne, appendMain, hen, harm, hcap, hcond,
    Bool.not_false, Bool.and_true, Bool.and_self, Bool.true_and, if_true,
    Bool.not_true, Bool.and_false, Bool.false_and, if_false,
    armIf_fields, hx1, hx2, hx3]
  by_cases hq : s.post_trigger_buffer_size ≤ 1 <;> simp [hq]

/-- Witness for C2 at a concrete staged state and firing sample. -/
theorem C2_carry_over_amended_witness :
    (stagedState.trigger_enabled = true ∧ stagedState.trigger_armed = true ∧
      stagedState.trigger_captured = false ∧
      0 < stagedState.pre_trigger_ch1.length) ∧
    ((acqTick stagedState 0 0 0 1 9 3).fired = true ∧
      (acqTick stagedState 0 0 0 1 9 3).state.ch1_diff_buffer
        = stagedState.ch1_diff_buffer ++ stagedState.pre_trigger_ch1 ++ [1] ∧
      (acqTick stagedState 0 0 0 1 9 3).state.ch2_diff_buffer
        = stagedState.ch2_diff_buffer ++ stagedState.pre_trigger_ch2 ++ [9] ∧
      (acqTick stagedState 0 0 0 1 9 3).state.timestamp_buffer
        = stagedState.timestamp_buffer ++ stagedState.pre_trigger_timestamps ++ [3] ∧
      (acqTick stagedState 0 0 0 1 9 3).state.pre_trigger_ch1
        = stagedState.pre_trigger_ch1 ∧
      (acqTick stagedState 0 0 0 1 9 3).state.pre_trigger_ch2
        = stagedState.pre_trigger_ch2 ∧
      (acqTick stagedState 0 0 0 1 9 3).state.pre_trigger_timestamps
        = stagedState.pre_trigger_timestamps) :=
  ⟨⟨rfl, rfl, rfl, by decide⟩,
    C2_carry_over_amended stagedState 0 0 0 1 9 3 rfl rfl rfl (by decide)
      (by decide) (by decide) (by decide) (by decide)⟩

/-- C2 counterexample: the claim as stated is false — immediately after
the firing tick the staging buffers still hold their contents (they are
extended into the main buffers but never cleared). -/
theorem C2_counterexample :
    (acqTick stagedState 0 0 0 1 9 3).fired = true ∧
    (acqTick stagedState 0 0 0 1 9 3).state.ch1_diff_buffer = [5, 6, 1] ∧
    (acqTick stagedState 0 0 0 1 9 3).state.pre_trigger_ch1 = [5, 6] ∧
    ([5, 6] : List Int) ≠ [] := by
  decide

/-- C4 (amended): when the armed trigger sees no matching edge and the
timeout has elapsed, the tick disarms the engine (`DISARMED`:
`trigger_armed = False`, `trigger_captured = False`), emits the
`trigger_timeout` event, and the main buffers stay empty — but the
pre-trigger stage is NOT cleared: it still receives the tick's sample and
keeps its contents. -/
theorem C4_timeout_amended (s : LAState) (prev1 prev2 : Int) (pc : Nat)
    (c1 c2 : Int) (now t0 : ℚ)
    (hen : s.trigger_enabled = true) (harm : s.trigger_armed = true)
    (hcap : s.trigger_captured = false)
    (hcond : check_trigger_condition s
      (if s.trigger_channel = "ch1" then prev1 else prev2)
      (if s.trigger_channel = "ch1" then c1 else c2) = false)
    (hstart : s.trigger_start_time = some t0) (ht0 : t0 ≠ 0)
    (hto : now - t0 > s.trigger_timeout)
    (hm1 : s.ch1_diff_buffer = []) (hm2 : s.ch2_diff_buffer = [])
    (hm3 : s.timestamp_buffer = []) :
    (acqTick s prev1 prev2 pc c1 c2 now).timedOut = true ∧
    (acqTick s prev1 prev2 pc c1 c2 now).fired = false ∧
    (acqTick s prev1 prev2 pc c1 c2 now).state.trigger_armed = false ∧
    (acqTick s prev1 prev2 pc c1 c2 now).state.trigger_captured = false ∧
    (acqTick s prev1 prev2 pc c1 c2 now).state.ch1_diff_buffer = [] ∧
    (acqTick s prev1 prev2 pc c1 c2 now).state.ch2_diff_buffer = [] ∧
    (acqTick s prev1 prev2 pc c1 c2 now).state.timestamp_buffer = [] ∧
    (acqTick s prev1 prev2 pc c1 c2 now).state.pre_trigger_ch1
      = dappend s.pre_trigger_buffer_size s.pre_trigger_ch1 c1 ∧
    (acqTick s prev1 prev2 pc c1 c2 now).state.pre_trigger_ch2
      = dappend s.pre_trigger_buffer_size s.pre_trigger_ch2 c2 ∧
    (acqTick s prev1 prev2 pc c1 c2 now).state.pre_trigger_timestamps
      = dappend s.pre_trigger_buffer_size s.pre_trigger_timestamps now := by
  simp [acqTick, triggerPhase, routeSample, timeoutCheck, appendPre,
    hen, harm, hcap, hcond, hstart, hm1, hm2, hm3, ht0, hto]

/-- Witness for C4 at a concrete armed state past its timeout. -/
theorem C4_timeout_amended_witness :
    (armedShortTimeout.trigger_enabled = true ∧
      armedShortTimeout.trigger_armed = true ∧
      armedShortTimeout.trigger_captured = false ∧
      armedShortTimeout.trigger_start_time = some 1 ∧ (1 : ℚ) ≠ 0 ∧
      (4 : ℚ) - 1 > armedShortTimeout.trigger_timeout) ∧
    ((acqTick armedShortTimeout 0 0 0 0 0 4).timedOut = true ∧
      (acqTick armedShortTimeout 0 0 0 0 0 4).fired = false ∧
      (acqTick armedShortTimeout 0 0 0 0 0 4).state.trigger_armed = false ∧
      (acqTick armedShortTimeout 0 0 0 0 0 4).state.trigger_captured = false ∧
      (acqTick armedShortTimeout 0 0 0 0 0 4).state.ch1_diff_buffer = [] ∧
      (acqTick armedShortTimeout 0 0 0 0 0 4).state.ch2_diff_buffer = [] ∧
      (acqTick armedShortTimeout 0 0 0 0 0 4).state.timestamp_buffer = [] ∧
      (acqTick armedShortTimeout 0 0 0 0 0 4).state.pre_trigger_ch1
        = dappend armedShortTimeout.pre_trigger_buffer_size
            armedShortTimeout.pre_trigger_ch1 0 ∧
      (acqTick armedShortTimeout 0 0 0 0 0 4).state.pre_trigger_ch2
        = dappend armedShortTimeout.pre_trigger_buffer_size
            armedShortTimeout.pre_trigger_ch2 0 ∧
      (acqTick armedShortTimeout 0 0 0 0 0 4).state.pre_trigger_timestamps
        = dappend armedShortTimeout.pre_trigger_buffer_size
            armedShortTimeout.pre_trigger_timestamps 4) :=
  ⟨⟨rfl, rfl, rfl, rfl, by norm_num, by norm_num [armedShortTimeout, initState]⟩,
    C4_timeout_amended armedShortTimeout 0 0 0 0 0 4 1 rfl rfl rfl (by decide)
      rfl (by norm_num) (by norm_num [armedShortTimeout, initState]) rfl rfl rfl⟩

/-- C4 counterexample: the claim as stated is false — after the
timing-out tick the pre-trigger stage is not cleared (it holds two
samples), although the engine did disarm, report the timeout, and keep
the main buffers empty. -/
theorem C4_counterexample :
    (acqTick armedShortTimeout 0 0 0 0 0 4).timedOut = true ∧
    (acqTick armedShortTimeout 0 0 0 0 0 4).state.trigger_armed = false ∧
    (acqTick armedShortTimeout 0 0 0 0 0 4).state.ch1_diff_buffer = [] ∧
    (acqTick armedShortTimeout 0 0 0 0 0 4).state.pre_trigger_ch1 = [0, 0] ∧
    ([0, 0] : List Int) ≠ [] := by
  refine ⟨?_, ?_, ?_, ?_, by decide⟩ <;>
    norm_num [acqTick, triggerPhase, routeSample, timeoutCheck, check_trigger_condition,
      fireTrigger, carryPre, appendMain, appendPre, dappend, dextend,
      armedShortTimeout, initState]

/-- C5 counterexample: with staging capacity 3 and five pre-trigger
samples (identified by `ch2` values `10..50` and timestamps `1..5`), the
head of the main buffer after firing is the LAST three of the five
(`30,40,50` / times `3,4,5`), not the first three — the bounded staging
deque evicts the oldest. -/
theorem C5_counterexample :
    (runTicks armedCap3 0 0 0 fiveThenTrigger).firedList
      = [false, false, false, false, false, true] ∧
    (runTicks armedCap3 0 0 0 fiveThenTrigger).state.ch2_diff_buffer
      = [30, 40, 50, 60] ∧
    (runTicks armedCap3 0 0 0 fiveThenTrigger).state.ch2_diff_buffer.take 3
      ≠ [10, 20, 30] ∧
    (runTicks armedCap3 0 0 0 fiveThenTrigger).state.timestamp_buffer.take 3
      ≠ [1, 2, 3] := by
  norm_num [runTicks, acqTick, triggerPhase, routeSample, timeoutCheck,
    check_trigger_condition, fireTrigger, carryPre, appendMain, appendPre,
    dappend, dextend, armedCap3, arm_trigger, fiveThenTrigger, initState]

/-- C5 (amended): in the capacity-3 scenario the trigger fires on the
sixth sample and the LAST three of the five staged samples appear at the
head of the main buffers, in original order, followed by the firing
sample. -/
theorem C5_last_three_amended :
    (runTicks armedCap3 0 0 0 fiveThenTrigger).firedList
      = [false, false, false, false, false, true] ∧
    (runTicks armedCap3 0 0 0 fiveThenTrigger).state.ch2_diff_buffer
      = [30, 40, 50, 60] ∧
    (runTicks armedCap3 0 0 0 fiveThenTrigger).state.timestamp_buffer
      = [3, 4, 5, 6] := by
  norm_num [runTicks, acqTick, triggerPhase, routeSample, timeoutCheck,
    check_trigger_condition, fireTrigger, carryPre, appendMain, appendPre,
    dappend, dextend, armedCap3, arm_trigger, fiveThenTrigger, initState]

/-- C6: with `edge = RISING` the trigger condition is exactly
`prev ≤ 0 ∧ curr ≥ 1` (with `FALLING`, exactly `prev ≥ 1 ∧ curr ≤ 0`),
for every configured level; and on the trigger-channel sequence
`[-1,-1,0,1,1]`, at each of the three admissible levels, the armed
rising-edge engine fires exactly once, at the transition from the sample
valued `0` to the sample valued `1`. -/
theorem C6_edge_detection (level prev curr : Int) :
    check_trigger_condition (armedRising level) prev curr
      = decide (prev ≤ 0 ∧ curr ≥ 1) ∧
    check_trigger_condition (armedFalling level) prev curr
      = decide (prev ≥ 1 ∧ curr ≤ 0) ∧
    (runTicks (armedRising (-1)) 0 0 0 seqRising).firedList
      = [false, false, false, true, false] ∧
    (runTicks (armedRising 0) 0 0 0 seqRising).firedList
      = [false, false, false, true, false] ∧
    (runTicks (armedRising 1) 0 0 0 seqRising).firedList
      = [false, false, false, true, false] := by
  refine ⟨rfl, rfl, ?_, ?_, ?_⟩ <;>
    norm_num [runTicks, acqTick, triggerPhase, routeSample, timeoutCheck,
      check_trigger_condition, fireTrigger, carryPre, appendMain, appendPre,
      dappend, dextend, armedRising, seqRising, initState]

theorem length_idxWhere (p : Int → Bool) (l : List Int) :
    (idxWhere p l).length = l.countP p := by
  induction l with
  | nil => simp [idxWhere]
  | cons a l ih =>
    by_cases h : p a <;> simp [idxWhere, h, ih, List.countP_cons]

theorem countP_pm_le (l : List Int) :
    l.countP (fun d => d == 1) + l.countP (fun d => d == -1)
      ≤ l.countP (fun d => d != 0) := by
  induction l with
  | nil => simp
  | cons a l ih =>
    simp only [List.countP_cons]
    by_cases h1 : a = 1
    · subst h1
      simp
      omega
    · by_cases h2 : a = -1
      · subst h2
        simp
        omega
      · by_cases h0 : a = 0
        · subst h0
          simp
          omega
        · simp [h1, h2, h0]
          omega

/-- C7 counterexample: the claim as stated is false. `stepWindow` has a
single binarized edge (fewer than 4), yet the analyzer returns
`(0.0, 50.0)`, not `(0.0, 0.0)` (the fallback path still computes a duty
cycle from the high-sample fraction); and `lowOscWindow` has zero
binarized edges, yet the analyzer returns a nonzero frequency `1/2` (its
edge detection runs on the raw, non-binarized signal). -/
theorem C7_counterexample :
    specBinEdges stepWindow = 1 ∧ 1 < 4 ∧
    analyze_pwm_signal stepWindow ts10 = (0, 50) ∧
    ((0 : ℚ), (50 : ℚ)) ≠ ((0 : ℚ), (0 : ℚ)) ∧
    specBinEdges lowOscWindow = 0 ∧
    (analyze_pwm_signal lowOscWindow ts10).1 = 1 / 2 ∧
    ((1 : ℚ) / 2) ≠ 0 := by
  refine ⟨?_, by norm_num, ?_, by norm_num, ?_, ?_, by norm_num⟩ <;>
    norm_num [analyze_pwm_signal, stepWindow, lowOscWindow, ts10, diffI, diffQ,
      idxWhere, selectQ, meanQ, highTime, rising_edges, falling_edges,
      risingPeriods, specBinEdges, specBinarize,
      List.insertionSort, List.orderedInsert]

/-- C7 (amended): the analyzer is total (never raises), and whenever the
RAW signal has fewer than 4 change positions the frequency component is
`0.0`; the duty-cycle component, however, can be nonzero (computed from
the high-sample fraction in the fallback path), and windows with many raw
but few binarized edges can produce nonzero frequencies, so the result is
not always exactly `(0.0, 0.0)`. -/
theorem C7_insufficient_data_amended (data : List Int) (timestamps : List ℚ)
    (h : (diffI data).countP (fun d => d != 0) < 4) :
    (analyze_pwm_signal data timestamps).1 = 0 := by
  unfold analyze_pwm_signal
  split
  · rfl
  · dsimp only
    split
    · have hc : ¬((idxWhere (fun d => d != 0) (diffI data)).length ≥ 4) := by
        rw [length_idxWhere]
        omega
      rw [if_neg hc]
    · have hle : (rising_edges data).length + (falling_edges data).length
          ≤ (diffI data).countP (fun d => d != 0) := by
        unfold rising_edges falling_edges
        simp only [List.length_map, length_idxWhere]
        exact countP_pm_le (diffI data)
      have hlt : (List.insertionSort (· ≤ ·)
          (rising_edges data ++ falling_edges data)).length < 4 := by
        rw [List.length_insertionSort, List.length_append]
        omega
      rw [if_pos hlt]

/-- Witness for C7 at the step window (one raw change). -/
theorem C7_insufficient_data_amended_witness :
    (diffI stepWindow).countP (fun d => d != 0) < 4 ∧
    (analyze_pwm_signal stepWindow ts10).1 = 0 :=
  ⟨by norm_num [diffI, stepWindow],
    C7_insufficient_data_amended stepWindow ts10 (by norm_num [diffI, stepWindow])⟩

/-- C8 counterexample: the claim as stated is false. On `unevenWindow`
(seven binarized edges, so at least 4) the inter-rising-edge periods are
`[2,2,4]`; every candidate is inside any sensible plausibility band (all
are at least 2 samples long), and the median is `2` — also after dropping
the longest period — so the claimed frequency is `1/2`; but the code
returns `3/8`, the inverse of the MEAN `8/3`, performing no band
rejection. -/
theorem C8_counterexample :
    4 ≤ specBinEdges unevenWindow ∧
    risingPeriods unevenWindow ts10 = [2, 2, 4] ∧
    specMedian [2, 2, 4] = 2 ∧
    specMedian [2, 2] = 2 ∧
    (analyze_pwm_signal unevenWindow ts10).1 = 3 / 8 ∧
    ((3 : ℚ) / 8) ≠ 1 / 2 := by
  refine ⟨?_, ?_, ?_, ?_, ?_, by norm_num⟩ <;>
    norm_num [analyze_pwm_signal, unevenWindow, ts10, diffI, diffQ, idxWhere,
      selectQ, meanQ, highTime, rising_edges, falling_edges, risingPeriods,
      specBinEdges, specBinarize, specMedian,
      List.insertionSort, List.orderedInsert]

/-- C8 (amended): with at least 10 samples, at least 2 rising unit-step
edges and at least 4 unit-step edges in total, the frequency estimate is
the inverse of the MEAN (not the median) of the inter-rising-edge
periods, and no plausibility-band rejection is applied to the candidate
periods. -/
theorem C8_frequency_mean_amended (data : List Int) (timestamps : List ℚ)
    (h10 : ¬(data.length < 10 ∨ timestamps.length < 10))
    (hr : 2 ≤ (rising_edges data).length)
    (h4 : 4 ≤ (rising_edges data).length + (falling_edges data).length)
    (havg : 0 < meanQ (risingPeriods data timestamps)) :
    (analyze_pwm_signal data timestamps).1
      = 1 / meanQ (risingPeriods data timestamps) := by
  unfold analyze_pwm_signal
  rw [if_neg h10]
  dsimp only
  have hnf : ¬((rising_edges data).length < 2 ∧ (falling_edges data).length < 2) := by
    omega
  rw [if_neg hnf]
  have h4' : ¬((List.insertionSort (· ≤ ·)
      (rising_edges data ++ falling_edges data)).length < 4) := by
    rw [List.length_insertionSort, List.length_append]
    omega
  rw [if_neg h4']
  dsimp only
  rw [if_pos hr, if_pos havg]

/-- Witness for C8 at the uneven window: the code's frequency equals the
inverse mean `3/8`. -/
theorem C8_frequency_mean_amended_witness :
    (¬(unevenWindow.length < 10 ∨ ts10.length < 10)) ∧
    2 ≤ (rising_edges unevenWindow).length ∧
    4 ≤ (rising_edges unevenWindow).length + (falling_edges unevenWindow).length ∧
    0 < meanQ (risingPeriods unevenWindow ts10) ∧
    (analyze_pwm_signal unevenWindow ts10).1
      = 1 / meanQ (risingPeriods unevenWindow ts10) :=
  ⟨by norm_num [unevenWindow, ts10],
    by norm_num [rising_edges, unevenWindow, diffI, idxWhere],
    by norm_num [rising_edges, falling_edges, unevenWindow, diffI, idxWhere],
    by norm_num [meanQ, risingPeriods, rising_edges, unevenWindow, ts10, diffI,
      diffQ, idxWhere, selectQ],
    C8_frequency_mean_amended unevenWindow ts10
      (by norm_num [unevenWindow, ts10])
      (by norm_num [rising_edges, unevenWindow, diffI, idxWhere])
      (by norm_num [rising_edges, falling_edges, unevenWindow, diffI, idxWhere])
      (by norm_num [meanQ, risingPeriods, rising_edges, unevenWindow, ts10, diffI,
        diffQ, idxWhere, selectQ])⟩

/-- C9 counterexample: the claim as stated is false. A call with the
invalid edge value `"bogus"` is not rejected: it returns `True` and
mutates the trigger state (enables the trigger and arms it). -/
theorem C9_counterexample :
    (set_trigger_config initState true "ch1" "bogus" 0 7).2 = true ∧
    (set_trigger_config initState true "ch1" "bogus" 0 7).1.trigger_enabled = true ∧
    (set_trigger_config initState true "ch1" "bogus" 0 7).1.trigger_armed = true ∧
    initState.trigger_enabled = false ∧
    initState.trigger_armed = false := by
  decide

/-- C9 (amended): `set_trigger_config` never rejects a call: with an edge
value outside `{rising, falling}` it silently leaves `trigger_edge`
unchanged, still applies the `enabled` flag (with the associated trigger
reset when enabling), and returns `True`. -/
theorem C9_invalid_edge_amended (s : LAState) (enabled : Bool) (channel : String)
    (level : Int) (now : ℚ) (edge : String)
    (hedge : ¬(edge = "rising" ∨ edge = "falling")) :
    (set_trigger_config s enabled channel edge level now).2 = true ∧
    (set_trigger_config s enabled channel edge level now).1.trigger_edge
      = s.trigger_edge ∧
    (set_trigger_config s enabled channel edge level now).1.trigger_enabled
      = enabled := by
  unfold set_trigger_config
  dsimp only
  rw [if_neg hedge]
  split_ifs <;> exact ⟨rfl, rfl, rfl⟩

/-- Witness for C9 at the invalid edge value `"bogus"`. -/
theorem C9_invalid_edge_amended_witness :
    (¬(("bogus" : String) = "rising" ∨ ("bogus" : String) = "falling")) ∧
    ((set_trigger_config initState true "ch2" "bogus" 1 7).2 = true ∧
      (set_trigger_config initState true "ch2" "bogus" 1 7).1.trigger_edge
        = initState.trigger_edge ∧
      (set_trigger_config initState true "ch2" "bogus" 1 7).1.trigger_enabled
        = true) :=
  ⟨by decide, C9_invalid_edge_amended initState true "ch2" 1 7 "bogus" (by decide)⟩

/-- C10: `set_sampling_rate` accepts `0` and returns `True` without
validation, and the acquisition loop's first step `1.0 / sampling_rate`
is defined exactly for nonzero rates (it raises `ZeroDivisionError`,
modelled as `none`, iff the rate is `0`). -/
theorem C10_zero_sampling_rate (s : LAState) (r : Int) :
    (set_sampling_rate s 0).2 = true ∧
    (set_sampling_rate s 0).1.sampling_rate = 0 ∧
    (sampleInterval r = none ↔ r = 0) := by
  refine ⟨rfl, rfl, ?_⟩
  unfold sampleInterval
  split <;> simp_all

end LogicAnalyzer
